import Mathlib

/-!
Verification development for the command-line tool `ligo_skymap_plot.py`
(module `ligo.skymap.tool.ligo_skymap_plot`).

The tool is a single linear script: parse arguments, read a HEALPix sky
map and its metadata, convert the map to probability per square degree,
draw axes in a chosen Mollweide projection, and optionally add a
colorbar, contours, coastlines, markers and a text annotation.

The shallow embedding below translates `main` (and the relevant parser
defaults) into a pure function from the parsed options, the sky-map
array, the metadata dictionary and the injection database to either an
uncaught error or a description of everything the script renders.
Numeric values that the script only branches on or displays are modelled
as rationals; quantities whose computation involves pi (pixel areas in
square degrees, radian-to-degree conversion) live in the reals.

External library functions are embedded from their documented semantics:
`hp.npix2nside` and `hp.nside2pixarea` from healpy, `np.sort`,
`np.searchsorted`, `np.round` and `np.rad2deg` from numpy.  The function
`postprocess.find_greedy_credible_levels` is kept as an explicit
parameter `gcl` of the embedded `main`: every claim below is parametric
in it, exactly as the script treats its result as opaque data.
-/

namespace LigoSkymapPlot

/-- Embedding of healpy `npix2nside`: the resolution `nside` such that
`npix = 12 * nside ^ 2`, when such a positive `nside` exists; healpy
raises `ValueError` otherwise. -/
def npix2nside (npix : ℕ) : Option ℕ :=
  (List.range (npix + 1)).find? (fun n => n != 0 && 12 * n ^ 2 == npix)

/-- Embedding of healpy `nside2pixarea nside degrees`: the area of one
HEALPix pixel, `4 * pi / (12 * nside ^ 2)` steradians, converted to
square degrees (two applications of `rad2deg`) when `degrees` is true. -/
noncomputable def nside2pixarea (nside : ℕ) (degrees : Bool) : ℝ :=
  let pixarea := 4 * Real.pi / (12 * (nside : ℝ) ^ 2)
  if degrees then pixarea * (180 / Real.pi) ^ 2 else pixarea

/-- Embedding of numpy `rad2deg` applied to a rational scalar read from
the injection database. -/
noncomputable def rad2deg (x : ℚ) : ℝ := (x : ℝ) * (180 / Real.pi)

/-- Embedding of numpy `round` on a rational scalar: round half to even.
Used for the `--contour` percentages shown in the annotation. -/
def npRoundQ (q : ℚ) : ℤ :=
  if q - ⌊q⌋ = 1 / 2 then (if ⌊q⌋ % 2 = 0 then ⌊q⌋ else ⌊q⌋ + 1)
  else ⌊q + 1 / 2⌋

/-- Embedding of numpy `round` on a real scalar: round half to even.
Used for the contour areas in square degrees. -/
noncomputable def npRound (x : ℝ) : ℤ :=
  if x - ⌊x⌋ = 1 / 2 then (if ⌊x⌋ % 2 = 0 then ⌊x⌋ else ⌊x⌋ + 1)
  else ⌊x + 1 / 2⌋

/-- Embedding of numpy `searchsorted` with side left on an ascending
sorted list: the first index whose element is not below `v`, that is the
insertion index that keeps the list sorted while placing `v` before any
equal entries. -/
def searchsortedLeft (v : ℚ) : List ℚ → ℕ
  | [] => 0
  | x :: xs => if x < v then searchsortedLeft v xs + 1 else 0

/-- Embedding of numpy `sort`: ascending sort of a list of rationals. -/
def npSort (l : List ℚ) : List ℚ := List.insertionSort (· ≤ ·) l

/-- Number of entries of `l` strictly below `v`. -/
def countLt (v : ℚ) (l : List ℚ) : ℕ := l.countP (fun x => decide (x < v))

/-- Where the sky map is read from: standard input or a named file that
`argparse.FileType` opened for reading. -/
inductive InputSource where
  | stdin : InputSource
  | file (name : String) : InputSource
  deriving DecidableEq, Repr

/-- Embedding of the positional `INPUT.fits` argument of the parser:
`nargs` is optional and the default is the string dash. -/
def parseArgInput : Option String → String
  | none => "-"
  | some s => s

/-- Embedding of `argparse.FileType rb`: the dash names standard input,
anything else names a file that is opened for reading. -/
def openInput (s : String) : InputSource :=
  if s = "-" then InputSource.stdin else InputSource.file s

/-- The `name` attribute of the opened stream, which `main` hands to
`fits.read_sky_map`. -/
def sourceName : InputSource → String
  | InputSource.stdin => "<stdin>"
  | InputSource.file f => f

/-- Uncaught Python exceptions of the embedded `main`. -/
inductive Err where
  | keyError (key : String) : Err
  | valueError : Err
  | unpackError : Err
  deriving DecidableEq, Repr

/-- One line of the `--annotate` text block: either the event ID line or
one contour-area line carrying the rounded percentage and the rounded
area in square degrees. -/
inductive AnnLine where
  | eventId (objid : String) : AnnLine
  | area (percent : ℤ) (areaDeg2 : ℤ) : AnnLine

/-- Parsed command-line options, with the argparse defaults. The empty
contour list stands for the argparse default `None`, matching Python
truthiness of the `--contour` value. -/
structure Opts where
  annotate : Bool := false
  contour : List ℚ := []
  colorbar : Bool := false
  radec : List (ℚ × ℚ) := []
  injDatabase : Bool := false
  geo : Bool := false
  input : Option String := none

/-- The sky-map metadata dictionary, restricted to the keys `main`
reads; a `none` field stands for an absent key, whose lookup raises
`KeyError`. -/
structure Metadata where
  gps_time : Option ℚ := none
  nest : Option Bool := none
  objid : Option String := none

/-- Everything the script renders on a successful run. -/
structure Output where
  readFrom : InputSource
  readName : String
  projection : String
  obstime : ℚ
  probperdeg2 : List ℝ
  nested : Bool
  colorbar : Bool
  contourLevels : List ℚ
  contourLabels : List ℚ
  markers : List (ℝ × ℝ)
  annotationText : Option (List AnnLine)

/-- The scaled credible levels `cls = 100 * find_greedy_credible_levels
skymap`, with the library function abstracted as `gcl`. -/
def clsOf (gcl : List ℚ → List ℚ) (skymap : List ℚ) : List ℚ :=
  (gcl skymap).map (fun c => 100 * c)

/-- The contour-area lines of the annotation: for each requested
percentage, numpy `round` of the percentage, paired with numpy `round`
of the left `searchsorted` index into the sorted scaled credible levels
times the pixel area in square degrees. -/
noncomputable def areaLines (gcl : List ℚ → List ℚ) (skymap : List ℚ)
    (contour : List ℚ) (nside : ℕ) : List AnnLine :=
  contour.map (fun p =>
    AnnLine.area (npRoundQ p)
      (npRound ((searchsortedLeft p (npSort (clsOf gcl skymap)) : ℝ) *
        nside2pixarea nside true)))

/-- The injection-marker part of the marker list: when `--inj-database`
is given, `metadata` must hold the key `objid` and the fixed SQL join
query must return exactly one longitude-latitude row, which is converted
from radians to degrees; otherwise the list is left alone. -/
noncomputable def injRadecs (opts : Opts) (db : String → List (ℚ × ℚ))
    (metadata : Metadata) : Except Err (List (ℝ × ℝ)) :=
  if opts.injDatabase then
    match metadata.objid with
    | none => Except.error (Err.keyError "objid")
    | some objid =>
      match db objid with
      | [(ra, dec)] => Except.ok [(rad2deg ra, rad2deg dec)]
      | _ => Except.error Err.unpackError
  else Except.ok []

/-- The output of a successful run of `main`, given the values the
run resolved on its way: the resolution, the gps time, the pixel
ordering and the injection markers. -/
noncomputable def mainOk (gcl : List ℚ → List ℚ) (opts : Opts)
    (skymap : List ℚ) (metadata : Metadata) (nside : ℕ) (gps : ℚ)
    (nested : Bool) (inj : List (ℝ × ℝ)) : Output :=
  { readFrom := openInput (parseArgInput opts.input)
    readName := sourceName (openInput (parseArgInput opts.input))
    projection := if opts.geo then "geo degrees mollweide"
      else "astro hours mollweide"
    obstime := gps
    probperdeg2 := skymap.map (fun x => (x : ℝ) / nside2pixarea nside true)
    nested := nested
    colorbar := opts.colorbar
    contourLevels := opts.contour
    contourLabels := opts.contour
    markers := opts.radec.map (fun p => ((p.1 : ℝ), (p.2 : ℝ))) ++ inj
    annotationText :=
      if opts.annotate then
        some ((match metadata.objid with
          | some o => [AnnLine.eventId o]
          | none => []) ++ areaLines gcl skymap opts.contour nside)
      else none }

/-- Embedding of `main`: the sky map and metadata stand for the result
of `fits.read_sky_map`, `db` for the injection database, and `gcl` for
`postprocess.find_greedy_credible_levels`.  Failures of the embedded
library calls and dictionary lookups surface as `Except.error`, in the
order the script performs them. -/
noncomputable def main (gcl : List ℚ → List ℚ) (opts : Opts)
    (db : String → List (ℚ × ℚ)) (skymap : List ℚ) (metadata : Metadata) :
    Except Err Output :=
  match npix2nside skymap.length with
  | none => Except.error Err.valueError
  | some nside =>
    match metadata.gps_time with
    | none => Except.error (Err.keyError "gps_time")
    | some gps =>
      match metadata.nest with
      | none => Except.error (Err.keyError "nest")
      | some nested =>
        match injRadecs opts db metadata with
        | Except.error e => Except.error e
        | Except.ok inj =>
          Except.ok (mainOk gcl opts skymap metadata nside gps nested inj)

/-- The rounded percentages displayed in the annotation block, one per
contour-area line. -/
def annPercentsOf (o : Output) : List ℤ :=
  (o.annotationText.getD []).filterMap (fun l =>
    match l with
    | AnnLine.area p _ => some p
    | _ => none)

/-- The percentage-area pairs displayed in the annotation block. -/
def annAreaPairsOf (o : Output) : List (ℤ × ℤ) :=
  (o.annotationText.getD []).filterMap (fun l =>
    match l with
    | AnnLine.area p a => some (p, a)
    | _ => none)

/-! Helper lemmas shared by the claims. -/

/-- On a sorted list, the left `searchsorted` index is the number of
entries strictly below the probe. -/
theorem searchsortedLeft_eq_countP (v : ℚ) :
    ∀ l : List ℚ, List.Sorted (· ≤ ·) l →
      searchsortedLeft v l = l.countP (fun x => decide (x < v))
  | [], _ => rfl
  | x :: xs, h => by
    rcases List.sorted_cons.mp h with ⟨hx, hxs⟩
    by_cases hlt : x < v
    · rw [searchsortedLeft, if_pos hlt, List.countP_cons,
        searchsortedLeft_eq_countP v xs hxs]
      simp [hlt]
    · rw [searchsortedLeft, if_neg hlt, List.countP_cons]
      have hz : xs.countP (fun x => decide (x < v)) = 0 :=
        List.countP_eq_zero.mpr (fun y hy => by
          simp only [decide_eq_true_eq]
          exact fun hyv => hlt (lt_of_le_of_lt (hx y hy) hyv))
      simp [hz, hlt]

/-- The left `searchsorted` index into the ascending sort of a list is
the number of entries of the original list strictly below the probe. -/
theorem searchsortedLeft_npSort (v : ℚ) (l : List ℚ) :
    searchsortedLeft v (npSort l) = countLt v l := by
  rw [npSort, searchsortedLeft_eq_countP v _
    (List.sorted_insertionSort (· ≤ ·) l)]
  exact (List.perm_insertionSort (· ≤ ·) l).countP_eq _

/-- Inversion of a successful run of `main`: the length of the sky map
resolves to some `nside`, the metadata holds gps time and pixel
ordering, the injection step succeeds, and the output is `mainOk` of the
resolved values. -/
theorem main_ok_elim (gcl : List ℚ → List ℚ) (opts : Opts)
    (db : String → List (ℚ × ℚ)) (skymap : List ℚ) (metadata : Metadata)
    (out : Output) (h : main gcl opts db skymap metadata = Except.ok out) :
    ∃ nside gps nested inj,
      npix2nside skymap.length = some nside ∧
      metadata.gps_time = some gps ∧
      metadata.nest = some nested ∧
      injRadecs opts db metadata = Except.ok inj ∧
      out = mainOk gcl opts skymap metadata nside gps nested inj := by
  unfold main at h
  cases hn : npix2nside skymap.length with
  | none => rw [hn] at h; exact absurd h (by simp)
  | some nside =>
    rw [hn] at h
    cases hg : metadata.gps_time with
    | none => rw [hg] at h; exact absurd h (by simp)
    | some gps =>
      rw [hg] at h
      cases hne : metadata.nest with
      | none => rw [hne] at h; exact absurd h (by simp)
      | some nested =>
        rw [hne] at h
        cases hi : injRadecs opts db metadata with
        | error e => rw [hi] at h; exact absurd h (by simp)
        | ok inj =>
          rw [hi] at h
          exact ⟨nside, gps, nested, inj, rfl, rfl, rfl, rfl,
            (Except.ok.injEq _ _).mp h.symm⟩

/-! Concrete fixtures used by the witnesses: a 12-pixel sky map (so
`nside = 1`), metadata with and without the optional keys, and option
records for the various flag combinations. -/

/-- Stand-in for the library credible-level function in witnesses. -/
def gclW : List ℚ → List ℚ := fun l => l

/-- Witness sky map: twelve pixels, so the resolution is one. -/
def skymapW : List ℚ := List.replicate 12 1

/-- Witness metadata holding gps time and pixel ordering, no object ID. -/
def mdW : Metadata := { gps_time := some 0, nest := some true, objid := none }

/-- Witness metadata with every optional key absent. -/
def mdEmpty : Metadata := {}

/-- Witness metadata holding only the gps time. -/
def mdNoNest : Metadata := { gps_time := some 0 }

/-- Witness metadata holding gps time, pixel ordering and an object ID. -/
def mdObj : Metadata :=
  { gps_time := some 0, nest := some true, objid := some "G123" }

/-- Witness database with no rows for any event. -/
def dbW : String → List (ℚ × ℚ) := fun _ => []

/-- Witness database returning exactly one longitude-latitude row. -/
def dbOne : String → List (ℚ × ℚ) := fun _ => [(1, 1/2)]

/-- Witness database returning two rows. -/
def dbTwo : String → List (ℚ × ℚ) := fun _ => [(1, 1/2), (2, 3)]

/-- Witness options: all argparse defaults. -/
def optsW : Opts := {}

/-- Witness options with the geographic flag. -/
def optsGeo : Opts := { geo := true }

/-- Witness options with annotation and a fractional contour level. -/
def optsC2 : Opts := { annotate := true, contour := [504/10] }

/-- Witness options with annotation and one whole contour level. -/
def optsC3 : Opts := { annotate := true, contour := [90] }

/-- Witness options reading the injection database. -/
def optsInj : Opts := { injDatabase := true }

/-- Witness options with one marker request. -/
def optsRadec : Opts := { radec := [(10, -20)] }

/-- Witness options naming an input file. -/
def optsFile : Opts := { input := some "map.fits" }

/-- C1: For every input sky map array, the plotted density array equals
the sky map divided elementwise by the HEALPix pixel area in square
degrees, the pixel area being computed from the nside that the array
length resolves to. -/
theorem C1_probperdeg2 (gcl : List ℚ → List ℚ) (opts : Opts)
    (db : String → List (ℚ × ℚ)) (skymap : List ℚ) (metadata : Metadata)
    (out : Output) (nside : ℕ)
    (h : main gcl opts db skymap metadata = Except.ok out)
    (hn : npix2nside skymap.length = some nside) :
    out.probperdeg2 =
      skymap.map (fun x => (x : ℝ) / nside2pixarea nside true) := by
  obtain ⟨n, gps, nested, inj, hn2, _, _, _, hout⟩ :=
    main_ok_elim gcl opts db skymap metadata out h
  have hnn : n = nside := by
    rw [hn] at hn2
    exact (Option.some.injEq _ _).mp hn2.symm
  rw [hout, hnn]
  rfl

/-- Witness for C1 at a twelve-pixel sky map of ones. -/
theorem C1_witness :
    main gclW optsW dbW skymapW mdW =
      Except.ok (mainOk gclW optsW skymapW mdW 1 0 true []) ∧
    npix2nside skymapW.length = some 1 ∧
    (mainOk gclW optsW skymapW mdW 1 0 true []).probperdeg2 =
      skymapW.map (fun x => (x : ℝ) / nside2pixarea 1 true) :=
  ⟨rfl, rfl, C1_probperdeg2 gclW optsW dbW skymapW mdW _ 1 rfl rfl⟩

/-- On an annotated output of `mainOk`, the rounded percentages of the
annotation block are numpy `round` of the requested contour levels. -/
theorem annPercentsOf_mainOk (gcl : List ℚ → List ℚ) (opts : Opts)
    (skymap : List ℚ) (metadata : Metadata) (nside : ℕ) (gps : ℚ)
    (nested : Bool) (inj : List (ℝ × ℝ)) (ha : opts.annotate = true) :
    annPercentsOf (mainOk gcl opts skymap metadata nside gps nested inj) =
      opts.contour.map npRoundQ := by
  have hmap : ∀ m : List ℚ,
      List.filterMap
        (fun l => match l with
          | AnnLine.area q _ => some q
          | _ => none)
        (m.map (fun p => AnnLine.area (npRoundQ p)
          (npRound ((searchsortedLeft p (npSort (clsOf gcl skymap)) : ℝ) *
            nside2pixarea nside true)))) = m.map npRoundQ := by
    intro m
    induction m with
    | nil => rfl
    | cons p ps ih => simpa using ih
  cases ho : metadata.objid with
  | none =>
    simp only [annPercentsOf, mainOk, ha, ho, if_true, Option.getD_some,
      areaLines, List.nil_append]
    exact hmap opts.contour
  | some o =>
    simp only [annPercentsOf, mainOk, ha, ho, if_true, Option.getD_some,
      areaLines, List.filterMap_append]
    rw [hmap opts.contour]
    rfl

/-- On an annotated output of `mainOk`, the percentage-area pairs of the
annotation block are, for each requested contour level, numpy `round` of
the level paired with numpy `round` of the searchsorted index into the
sorted scaled credible levels times the pixel area. -/
theorem annAreaPairsOf_mainOk (gcl : List ℚ → List ℚ) (opts : Opts)
    (skymap : List ℚ) (metadata : Metadata) (nside : ℕ) (gps : ℚ)
    (nested : Bool) (inj : List (ℝ × ℝ)) (ha : opts.annotate = true) :
    annAreaPairsOf (mainOk gcl opts skymap metadata nside gps nested inj) =
      opts.contour.map (fun p =>
        (npRoundQ p,
          npRound ((searchsortedLeft p (npSort (clsOf gcl skymap)) : ℝ) *
            nside2pixarea nside true))) := by
  have hmap : ∀ m : List ℚ,
      List.filterMap
        (fun l => match l with
          | AnnLine.area q a => some (q, a)
          | _ => none)
        (m.map (fun p => AnnLine.area (npRoundQ p)
          (npRound ((searchsortedLeft p (npSort (clsOf gcl skymap)) : ℝ) *
            nside2pixarea nside true)))) =
        m.map (fun p =>
          (npRoundQ p,
            npRound ((searchsortedLeft p (npSort (clsOf gcl skymap)) : ℝ) *
              nside2pixarea nside true))) := by
    intro m
    induction m with
    | nil => rfl
    | cons p ps ih => simpa using ih
  cases ho : metadata.objid with
  | none =>
    simp only [annAreaPairsOf, mainOk, ha, ho, if_true, Option.getD_some,
      areaLines, List.nil_append]
    exact hmap opts.contour
  | some o =>
    simp only [annAreaPairsOf, mainOk, ha, ho, if_true, Option.getD_some,
      areaLines, List.filterMap_append]
    rw [hmap opts.contour]
    rfl

/-- C2 counterexample: with `--annotate --contour 50.4`, the contour
line labels show the unrounded value 50.4 while the annotation text
shows the rounded percentage 50, so the two displays do not agree. -/
theorem C2_counterexample :
    (main gclW optsC2 dbW skymapW mdW).map
      (fun o => (o.contourLabels, annPercentsOf o)) =
      Except.ok ([(504/10 : ℚ)], ([50] : List ℤ)) ∧
    ([(504/10 : ℚ)] : List ℚ) ≠
      ([50] : List ℤ).map (fun z : ℤ => (z : ℚ)) := by
  have hfl : ⌊(504/10 : ℚ)⌋ = 50 := by
    rw [Int.floor_eq_iff]
    norm_num
  have hfl2 : ⌊(504/10 : ℚ) + 1/2⌋ = 50 := by
    rw [Int.floor_eq_iff]
    norm_num
  constructor
  · have h1 : main gclW optsC2 dbW skymapW mdW =
        Except.ok (mainOk gclW optsC2 skymapW mdW 1 0 true []) := rfl
    rw [h1]
    refine congrArg Except.ok (Prod.ext rfl ?_)
    show annPercentsOf (mainOk gclW optsC2 skymapW mdW 1 0 true []) = [50]
    rw [annPercentsOf_mainOk gclW optsC2 skymapW mdW 1 0 true [] rfl]
    show [npRoundQ (504/10)] = [50]
    have hr : npRoundQ (504/10) = 50 := by
      simp only [npRoundQ, hfl, hfl2]
      norm_num
    rw [hr]
  · intro h
    simp only [List.map_cons, List.map_nil, List.cons.injEq, and_true] at h
    norm_num at h

/-- C2 as amended: the annotation text reports numpy `round` of each
user-supplied contour percentage, while the contour line labels show the
percentages as supplied, unrounded; the two displays agree whenever
every supplied percentage equals its own rounding, in particular for
whole-number percentages. -/
theorem C2_rounding (gcl : List ℚ → List ℚ) (opts : Opts)
    (db : String → List (ℚ × ℚ)) (skymap : List ℚ) (metadata : Metadata)
    (out : Output) (h : main gcl opts db skymap metadata = Except.ok out)
    (ha : opts.annotate = true) :
    out.contourLabels = opts.contour ∧
    annPercentsOf out = opts.contour.map npRoundQ ∧
    ((∀ p ∈ opts.contour, ((npRoundQ p : ℚ)) = p) →
      out.contourLabels = (annPercentsOf out).map (fun z : ℤ => (z : ℚ))) := by
  obtain ⟨n, gps, nested, inj, _, _, _, _, hout⟩ :=
    main_ok_elim gcl opts db skymap metadata out h
  subst hout
  refine ⟨rfl, annPercentsOf_mainOk gcl opts skymap metadata n gps nested
    inj ha, fun hint => ?_⟩
  rw [annPercentsOf_mainOk gcl opts skymap metadata n gps nested inj ha]
  show opts.contour = _
  symm
  rw [List.map_map]
  refine (List.map_congr_left fun p hp => ?_).trans (List.map_id _)
  exact hint p hp

/-- Witness for the amended C2 at the whole contour level 90. -/
theorem C2_witness :
    main gclW optsC3 dbW skymapW mdW =
      Except.ok (mainOk gclW optsC3 skymapW mdW 1 0 true []) ∧
    (mainOk gclW optsC3 skymapW mdW 1 0 true []).contourLabels =
      optsC3.contour ∧
    annPercentsOf (mainOk gclW optsC3 skymapW mdW 1 0 true []) =
      optsC3.contour.map npRoundQ :=
  ⟨rfl,
    (C2_rounding gclW optsC3 dbW skymapW mdW _ rfl rfl).1,
    (C2_rounding gclW optsC3 dbW skymapW mdW _ rfl rfl).2.1⟩

/-- C3: With `--annotate` and `--contour`, the area reported for each
requested percentage `p` is numpy `round` of `N * A` square degrees,
where `A` is the pixel area in square degrees and `N` is the number of
pixels whose scaled greedy credible level is strictly below `p`. -/
theorem C3_area (gcl : List ℚ → List ℚ) (opts : Opts)
    (db : String → List (ℚ × ℚ)) (skymap : List ℚ) (metadata : Metadata)
    (out : Output) (nside : ℕ)
    (h : main gcl opts db skymap metadata = Except.ok out)
    (ha : opts.annotate = true)
    (hn : npix2nside skymap.length = some nside) :
    annAreaPairsOf out = opts.contour.map (fun p =>
      (npRoundQ p,
        npRound ((countLt p (clsOf gcl skymap) : ℝ) *
          nside2pixarea nside true))) := by
  obtain ⟨n, gps, nested, inj, hn2, _, _, _, hout⟩ :=
    main_ok_elim gcl opts db skymap metadata out h
  have hnn : n = nside := by
    rw [hn] at hn2
    exact (Option.some.injEq _ _).mp hn2.symm
  subst hout hnn
  rw [annAreaPairsOf_mainOk gcl opts skymap metadata n gps nested inj ha]
  refine List.map_congr_left (fun p _ => ?_)
  rw [searchsortedLeft_npSort]

/-- Witness for C3 at the contour level 90 on the witness sky map. -/
theorem C3_witness :
    main gclW optsC3 dbW skymapW mdW =
      Except.ok (mainOk gclW optsC3 skymapW mdW 1 0 true []) ∧
    annAreaPairsOf (mainOk gclW optsC3 skymapW mdW 1 0 true []) =
      optsC3.contour.map (fun p =>
        (npRoundQ p,
          npRound ((countLt p (clsOf gclW skymapW) : ℝ) *
            nside2pixarea 1 true))) :=
  ⟨rfl, C3_area gclW optsC3 dbW skymapW mdW _ 1 rfl rfl rfl⟩

/-- C4: The geographic flag selects the projection: with `--geo` the
axes use the projection string for geographic degrees, otherwise the one
for astronomical hours. -/
theorem C4_projection (gcl : List ℚ → List ℚ) (opts : Opts)
    (db : String → List (ℚ × ℚ)) (skymap : List ℚ) (metadata : Metadata)
    (out : Output) (h : main gcl opts db skymap metadata = Except.ok out) :
    out.projection = if opts.geo then "geo degrees mollweide"
      else "astro hours mollweide" := by
  obtain ⟨n, gps, nested, inj, _, _, _, _, hout⟩ :=
    main_ok_elim gcl opts db skymap metadata out h
  rw [hout]
  rfl

/-- Witness for C4 with the geographic flag set. -/
theorem C4_witness :
    main gclW optsGeo dbW skymapW mdW =
      Except.ok (mainOk gclW optsGeo skymapW mdW 1 0 true []) ∧
    (mainOk gclW optsGeo skymapW mdW 1 0 true []).projection =
      (if optsGeo.geo then "geo degrees mollweide"
        else "astro hours mollweide") :=
  ⟨rfl, C4_projection gclW optsGeo dbW skymapW mdW _ rfl⟩

/-- C5: With `--annotate` and no `objid` metadata key (and the rest of
the run well formed, in particular no `--inj-database`, which reads the
key without a guard), the missing object ID is silently skipped: the run
returns normally, the annotation block carries no event ID line, and the
contour-area lines are still produced. -/
theorem C5_objid_skipped (gcl : List ℚ → List ℚ) (opts : Opts)
    (db : String → List (ℚ × ℚ)) (skymap : List ℚ) (metadata : Metadata)
    (nside : ℕ) (gps : ℚ) (nested : Bool)
    (hn : npix2nside skymap.length = some nside)
    (hg : metadata.gps_time = some gps)
    (hne : metadata.nest = some nested)
    (hinj : opts.injDatabase = false)
    (ha : opts.annotate = true)
    (hobj : metadata.objid = none) :
    main gcl opts db skymap metadata =
      Except.ok (mainOk gcl opts skymap metadata nside gps nested []) ∧
    (mainOk gcl opts skymap metadata nside gps nested []).annotationText =
      some (areaLines gcl skymap opts.contour nside) ∧
    ∀ l ∈ areaLines gcl skymap opts.contour nside,
      ∀ s, l ≠ AnnLine.eventId s := by
  refine ⟨?_, ?_, ?_⟩
  · unfold main
    rw [hn, hg, hne]
    unfold injRadecs
    rw [hinj]
    rfl
  · simp only [mainOk, ha, hobj, if_true, List.nil_append]
  · intro l hl s
    rcases List.mem_map.mp hl with ⟨p, _, hp⟩
    rw [← hp]
    intro hcontra
    exact AnnLine.noConfusion hcontra

/-- Witness for C5: annotation with a contour but no object ID. -/
theorem C5_witness :
    main gclW optsC3 dbW skymapW mdW =
      Except.ok (mainOk gclW optsC3 skymapW mdW 1 0 true []) ∧
    (mainOk gclW optsC3 skymapW mdW 1 0 true []).annotationText =
      some (areaLines gclW skymapW optsC3.contour 1) ∧
    ∀ l ∈ areaLines gclW skymapW optsC3.contour 1,
      ∀ s, l ≠ AnnLine.eventId s :=
  C5_objid_skipped gclW optsC3 dbW skymapW mdW 1 0 true rfl rfl rfl rfl
    rfl rfl

/-- C6: With `--inj-database`, the object ID is read from the metadata
without a guard, so a missing key is an uncaught `KeyError`; the query
result is unpacked into exactly one row, so zero or several rows are an
uncaught unpacking `ValueError`; only on exactly one row does the run
continue, to a normal return. -/
theorem C6_inj_database (gcl : List ℚ → List ℚ) (opts : Opts)
    (db : String → List (ℚ × ℚ)) (skymap : List ℚ) (metadata : Metadata)
    (nside : ℕ) (gps : ℚ) (nested : Bool)
    (hn : npix2nside skymap.length = some nside)
    (hg : metadata.gps_time = some gps)
    (hne : metadata.nest = some nested)
    (hinj : opts.injDatabase = true) :
    (metadata.objid = none →
      main gcl opts db skymap metadata =
        Except.error (Err.keyError "objid")) ∧
    (∀ o, metadata.objid = some o → (db o).length ≠ 1 →
      main gcl opts db skymap metadata = Except.error Err.unpackError) ∧
    (∀ o ra dec, metadata.objid = some o → db o = [(ra, dec)] →
      main gcl opts db skymap metadata =
        Except.ok (mainOk gcl opts skymap metadata nside gps nested
          [(rad2deg ra, rad2deg dec)])) := by
  refine ⟨?_, ?_, ?_⟩
  · intro hobj
    simp [main, injRadecs, hn, hg, hne, hinj, hobj]
  · intro o hobj hlen
    cases hdb : db o with
    | nil => simp [main, injRadecs, hn, hg, hne, hinj, hobj, hdb]
    | cons row rest =>
      cases rest with
      | nil =>
        exact absurd (by rw [hdb]; rfl) hlen
      | cons row2 rest2 =>
        cases row with
        | mk ra dec =>
          simp [main, injRadecs, hn, hg, hne, hinj, hobj, hdb]
  · intro o ra dec hobj hdb
    simp [main, injRadecs, hn, hg, hne, hinj, hobj, hdb]

/-- Witness for C6: applied once with the key missing, once with two
rows, and once with exactly one row. -/
theorem C6_witness :
    main gclW optsInj dbW skymapW mdW =
      Except.error (Err.keyError "objid") ∧
    main gclW optsInj dbTwo skymapW mdObj =
      Except.error Err.unpackError ∧
    main gclW optsInj dbOne skymapW mdObj =
      Except.ok (mainOk gclW optsInj skymapW mdObj 1 0 true
        [(rad2deg 1, rad2deg (1/2))]) :=
  ⟨(C6_inj_database gclW optsInj dbW skymapW mdW 1 0 true rfl rfl rfl
      rfl).1 rfl,
    (C6_inj_database gclW optsInj dbTwo skymapW mdObj 1 0 true rfl rfl rfl
      rfl).2.1 "G123" rfl (by decide),
    (C6_inj_database gclW optsInj dbOne skymapW mdObj 1 0 true rfl rfl rfl
      rfl).2.2 "G123" 1 (1/2) rfl rfl⟩

/-- C7: A missing metadata key other than the object ID propagates as an
uncaught failure: without the gps time the run dies on its lookup, and
with a gps time but no pixel-ordering key it dies on that lookup; the
embedded run has no handler around either. -/
theorem C7_metadata_keys (gcl : List ℚ → List ℚ) (opts : Opts)
    (db : String → List (ℚ × ℚ)) (skymap : List ℚ) (metadata : Metadata)
    (nside : ℕ) (hn : npix2nside skymap.length = some nside) :
    (metadata.gps_time = none →
      main gcl opts db skymap metadata =
        Except.error (Err.keyError "gps_time")) ∧
    (∀ t, metadata.gps_time = some t → metadata.nest = none →
      main gcl opts db skymap metadata =
        Except.error (Err.keyError "nest")) := by
  constructor
  · intro hg
    unfold main
    rw [hn, hg]
  · intro t hg hne
    unfold main
    rw [hn, hg, hne]

/-- Witness for C7: empty metadata dies on the gps time, metadata with
only a gps time dies on the pixel ordering. -/
theorem C7_witness :
    main gclW optsW dbW skymapW mdEmpty =
      Except.error (Err.keyError "gps_time") ∧
    main gclW optsW dbW skymapW mdNoNest =
      Except.error (Err.keyError "nest") :=
  ⟨(C7_metadata_keys gclW optsW dbW skymapW mdEmpty 1 rfl).1 rfl,
    (C7_metadata_keys gclW optsW dbW skymapW mdNoNest 1 rfl).2 0 rfl rfl⟩

/-- C8: The marker list starts with one star marker per `--radec` pair,
at exactly that right ascension and declination in degrees and in the
given order, followed only by the injection marker; without
`--inj-database` it is exactly the `--radec` pairs, and with neither
flag it is empty. -/
theorem C8_markers (gcl : List ℚ → List ℚ) (opts : Opts)
    (db : String → List (ℚ × ℚ)) (skymap : List ℚ) (metadata : Metadata)
    (out : Output) (h : main gcl opts db skymap metadata = Except.ok out) :
    (∃ inj, injRadecs opts db metadata = Except.ok inj ∧
      out.markers =
        opts.radec.map (fun p => ((p.1 : ℝ), (p.2 : ℝ))) ++ inj) ∧
    (opts.injDatabase = false →
      out.markers = opts.radec.map (fun p => ((p.1 : ℝ), (p.2 : ℝ)))) ∧
    (opts.injDatabase = false → opts.radec = [] → out.markers = []) := by
  obtain ⟨n, gps, nested, inj, _, _, _, hi, hout⟩ :=
    main_ok_elim gcl opts db skymap metadata out h
  subst hout
  have hbase : (mainOk gcl opts skymap metadata n gps nested inj).markers =
      opts.radec.map (fun p => ((p.1 : ℝ), (p.2 : ℝ))) ++ inj := rfl
  have hnil : opts.injDatabase = false → inj = [] := by
    intro hfalse
    unfold injRadecs at hi
    rw [hfalse] at hi
    simpa using hi.symm
  refine ⟨⟨inj, hi, hbase⟩, ?_, ?_⟩
  · intro hfalse
    rw [hbase, hnil hfalse, List.append_nil]
  · intro hfalse hrad
    rw [hbase, hnil hfalse, hrad, List.append_nil, List.map_nil]

/-- Witness for C8 with one `--radec` pair and no database. -/
theorem C8_witness :
    main gclW optsRadec dbW skymapW mdW =
      Except.ok (mainOk gclW optsRadec skymapW mdW 1 0 true []) ∧
    (mainOk gclW optsRadec skymapW mdW 1 0 true []).markers =
      optsRadec.radec.map (fun p => ((p.1 : ℝ), (p.2 : ℝ))) :=
  ⟨rfl,
    (C8_markers gclW optsRadec dbW skymapW mdW _ rfl).2.1 rfl⟩

/-- C9: an omitted positional argument defaults to the dash, which
resolves to standard input; a given file name is opened for reading and
that very name is the one handed to the sky-map reader. -/
theorem C9_input (gcl : List ℚ → List ℚ) (opts : Opts)
    (db : String → List (ℚ × ℚ)) (skymap : List ℚ) (metadata : Metadata)
    (out : Output) (h : main gcl opts db skymap metadata = Except.ok out) :
    (opts.input = none → out.readFrom = InputSource.stdin) ∧
    (∀ f, opts.input = some f → f ≠ "-" →
      out.readFrom = InputSource.file f ∧ out.readName = f) := by
  obtain ⟨n, gps, nested, inj, _, _, _, _, hout⟩ :=
    main_ok_elim gcl opts db skymap metadata out h
  subst hout
  constructor
  · intro hin
    show openInput (parseArgInput opts.input) = InputSource.stdin
    rw [hin]
    rfl
  · intro f hin hdash
    have hopen : openInput (parseArgInput opts.input) =
        InputSource.file f := by
      rw [hin]
      unfold parseArgInput openInput
      rw [if_neg hdash]
    exact ⟨hopen, by show sourceName _ = f; rw [hopen]; rfl⟩

/-- Witness for C9 at a named input file. -/
theorem C9_witness :
    main gclW optsFile dbW skymapW mdW =
      Except.ok (mainOk gclW optsFile skymapW mdW 1 0 true []) ∧
    (mainOk gclW optsFile skymapW mdW 1 0 true []).readFrom =
      InputSource.file "map.fits" ∧
    (mainOk gclW optsFile skymapW mdW 1 0 true []).readName = "map.fits" :=
  ⟨rfl,
    (C9_input gclW optsFile dbW skymapW mdW _ rfl).2 "map.fits" rfl
      (by decide)⟩

/-- C10: When the injection query succeeds with one longitude-latitude
row, the injection marker is appended after the `--radec` markers at the
radian-to-degree conversion of that row. -/
theorem C10_inj_marker (gcl : List ℚ → List ℚ) (opts : Opts)
    (db : String → List (ℚ × ℚ)) (skymap : List ℚ) (metadata : Metadata)
    (out : Output) (o : String) (ra dec : ℚ)
    (h : main gcl opts db skymap metadata = Except.ok out)
    (hinj : opts.injDatabase = true)
    (hobj : metadata.objid = some o)
    (hdb : db o = [(ra, dec)]) :
    out.markers = opts.radec.map (fun p => ((p.1 : ℝ), (p.2 : ℝ))) ++
      [(rad2deg ra, rad2deg dec)] := by
  obtain ⟨n, gps, nested, inj, _, _, _, hi, hout⟩ :=
    main_ok_elim gcl opts db skymap metadata out h
  subst hout
  have hinj2 : inj = [(rad2deg ra, rad2deg dec)] := by
    simp [injRadecs, hinj, hobj, hdb] at hi
    exact hi.symm
  rw [show (mainOk gcl opts skymap metadata n gps nested inj).markers =
    opts.radec.map (fun p => ((p.1 : ℝ), (p.2 : ℝ))) ++ inj from rfl,
    hinj2]

/-- Witness for C10 at a database returning one row. -/
theorem C10_witness :
    main gclW optsInj dbOne skymapW mdObj =
      Except.ok (mainOk gclW optsInj skymapW mdObj 1 0 true
        [(rad2deg 1, rad2deg (1/2))]) ∧
    (mainOk gclW optsInj skymapW mdObj 1 0 true
        [(rad2deg 1, rad2deg (1/2))]).markers =
      optsInj.radec.map (fun p => ((p.1 : ℝ), (p.2 : ℝ))) ++
        [(rad2deg 1, rad2deg (1/2))] :=
  ⟨rfl,
    C10_inj_marker gclW optsInj dbOne skymapW mdObj _ "G123" 1 (1/2) rfl
      rfl rfl rfl⟩

end LigoSkymapPlot
